import Mathlib

/-!
# Verification of the dengue-outbreak-prediction pipeline

A shallow embedding of the three batch stages of the repository:

* `src/containers/1-data-cleaning/clean_data.py`  (`clean_data`)
* `src/containers/2-feature-engineering/create_features.py`  (`create_lag_features`)
* `src/containers/3-eda/generate_eda.py`  (`generate_eda`)

Each stage is a pure tabular transformation (the S3 download/upload and the
console logging around it are I/O plumbing and are not modelled).  A dataset
row carries the canonical columns that survive the cleaner: the calendar
integers YEAR/MONTH/DAY and the six value columns RAINFALL, TMAX, TMIN,
"Ave. Temp", RH and "DENGUE CASES".  A possibly-missing (NaN) cell is an
`Option ℚ` (`none` = NaN); machine floats are modelled by exact rationals.
-/

namespace DenguePipeline

/-- One row of the tabular dataset, with the canonical column layout the
cleaner works over (the WIND_SPEED / WIND_DIRECTION columns the cleaner drops
in its step 1 are not part of the retained schema and are omitted).
YEAR/MONTH/DAY are the raw calendar integers; the six value columns are
possibly-missing rationals (`none` models a NaN cell). -/
structure Row where
  year : Int
  month : Int
  day : Int
  rainfall : Option ℚ
  tmax : Option ℚ
  tmin : Option ℚ
  aveTemp : Option ℚ
  rh : Option ℚ
  dengue : Option ℚ
  deriving Repr, DecidableEq

/-- Gregorian leap year (the rule `pd.to_datetime` uses). -/
def isLeap (y : Int) : Bool :=
  (y % 4 == 0 && y % 100 != 0) || y % 400 == 0

/-- Number of days of month `m` in year `y`. -/
def daysInMonth (y m : Int) : Int :=
  if m == 1 || m == 3 || m == 5 || m == 7 || m == 8 || m == 10 || m == 12 then 31
  else if m == 4 || m == 6 || m == 9 || m == 11 then 30
  else if isLeap y then 29 else 28

/-- Whether (y, m, d) is a valid calendar date.  `pd.to_datetime(df[['YEAR',
'MONTH','DAY']], errors='coerce')` yields NaT exactly on invalid combinations
(the additional pandas timestamp range bound, years outside 1677-2262, is not
modelled; no claim depends on it). -/
def validDate (y m d : Int) : Bool :=
  1 ≤ m && m ≤ 12 && 1 ≤ d && d ≤ daysInMonth y m

/-- The DATE cell the cleaner derives in its step 2: the (year, month, day)
triple when valid, `none` (NaT) otherwise.  Chronological order on valid
dates coincides with lexicographic order on the triples. -/
def dateKey (r : Row) : Option (Int × Int × Int) :=
  if validDate r.year r.month r.day then some (r.year, r.month, r.day) else none

/-- Lexicographic (chronological) order on date triples. -/
def tripLE (a b : Int × Int × Int) : Bool :=
  decide (a.1 < b.1) ||
    (decide (a.1 = b.1) && (decide (a.2.1 < b.2.1) ||
      (decide (a.2.1 = b.2.1) && decide (a.2.2 ≤ b.2.2))))

/-- Order on derived DATE cells: `pandas.sort_values` places NaT last
(`na_position='last'`), so `none` is the top element. -/
def keyLE : Option (Int × Int × Int) → Option (Int × Int × Int) → Bool
  | _, none => true
  | none, some _ => false
  | some a, some b => tripLE a b

/-- Row comparison used by `df.sort_values('DATE')`. -/
def rowle (a b : Row) : Prop := keyLE (dateKey a) (dateKey b) = true

instance : DecidableRel rowle := fun a b => by
  unfold rowle; infer_instance

theorem tripLE_total (a b : Int × Int × Int) : tripLE a b = true ∨ tripLE b a = true := by
  rcases a with ⟨y1, m1, d1⟩; rcases b with ⟨y2, m2, d2⟩
  simp only [tripLE, Bool.or_eq_true, Bool.and_eq_true, decide_eq_true_eq]
  omega

theorem tripLE_trans {a b c : Int × Int × Int}
    (h1 : tripLE a b = true) (h2 : tripLE b c = true) : tripLE a c = true := by
  rcases a with ⟨y1, m1, d1⟩; rcases b with ⟨y2, m2, d2⟩; rcases c with ⟨y3, m3, d3⟩
  simp only [tripLE, Bool.or_eq_true, Bool.and_eq_true, decide_eq_true_eq] at *
  omega

instance : IsTotal Row rowle where
  total a b := by
    unfold rowle keyLE
    rcases hA : dateKey a with _ | ka <;> rcases hB : dateKey b with _ | kb <;>
      simp [tripLE_total]

instance : IsTrans Row rowle where
  trans a b c h1 h2 := by
    unfold rowle keyLE at *
    rcases hA : dateKey a with _ | ka <;> rcases hB : dateKey b with _ | kb <;>
        rcases hC : dateKey c with _ | kc <;> simp_all
    exact tripLE_trans h1 h2

/-- `df = df.sort_values('DATE').reset_index(drop=True)` (cleaner step 2,
feature stage line 25): sort rows ascending by the derived DATE, NaT last.
The source's tie order among equal dates is an implementation detail of the
underlying sort; we model it with the (stable) insertion sort. -/
def sortByDate (t : List Row) : List Row := List.insertionSort rowle t

/-! ## Column-wise cell operations of the cleaner (steps 3 and 4) -/

/-- Forward fill with an explicit carry (the value of the nearest preceding
non-missing cell, if any).  `ffillAux none l` is pandas `Series.ffill()`. -/
def ffillAux (carry : Option ℚ) : List (Option ℚ) → List (Option ℚ)
  | [] => []
  | none :: xs => carry :: ffillAux carry xs
  | some v :: xs => some v :: ffillAux (some v) xs

/-- pandas `Series.ffill()`: each NaN becomes the nearest preceding
non-missing value (leading NaNs stay NaN). -/
def ffill (l : List (Option ℚ)) : List (Option ℚ) := ffillAux none l

/-- One step of the backward fill: prepend cell `x` to the already-filled
tail, replacing a NaN `x` by the tail's (already propagated) head value. -/
def bfillStep (x : Option ℚ) (ys : List (Option ℚ)) : List (Option ℚ) :=
  match x, ys with
  | none, some v :: _ => some v :: ys
  | _, _ => x :: ys

/-- pandas `Series.bfill()`: each NaN becomes the nearest following
non-missing value (trailing NaNs stay NaN). -/
def bfill : List (Option ℚ) → List (Option ℚ)
  | [] => []
  | x :: xs => bfillStep x (bfill xs)

/-- `df[col].ffill().bfill()` — the fill applied to each of the temperature /
humidity columns TMAX, TMIN, "Ave. Temp", RH (cleaner step 3). -/
def ffillBfill (l : List (Option ℚ)) : List (Option ℚ) := bfill (ffill l)

/-- `Series.fillna(0)` on one cell. -/
def fillna0 : Option ℚ → Option ℚ
  | none => some 0
  | some v => some v

/-- `df['RAINFALL'].fillna(0)` (cleaner step 3). -/
def fillRainfall (l : List (Option ℚ)) : List (Option ℚ) := l.map fillna0

/-- `df['DENGUE CASES'].ffill().fillna(0)` (cleaner step 3). -/
def fillDengue (l : List (Option ℚ)) : List (Option ℚ) := (ffill l).map fillna0

/-- Cleaner step 4 on one cell: `df.loc[df[col] < 0, col] = 0` rewrites a
negative value to 0; a NaN cell compares false and is left untouched. -/
def clampCell : Option ℚ → Option ℚ
  | none => none
  | some v => some (if v < 0 then 0 else v)

/-- Cleaner step 4 on one column. -/
def clampCol (l : List (Option ℚ)) : List (Option ℚ) := l.map clampCell

/-- Reassemble rows from per-column results: row `i` of the output is row `i`
of `t` with its six value columns replaced by the `i`-th entries of the given
columns (YEAR/MONTH/DAY and hence the derived DATE are untouched — the
cleaner never writes those).  This packages the six independent column
assignments `df[col] = ...` of cleaner steps 3-4 back into row form. -/
def rebuild : List Row → List (Option ℚ) → List (Option ℚ) → List (Option ℚ) →
    List (Option ℚ) → List (Option ℚ) → List (Option ℚ) → List Row
  | r :: t, a :: as, b :: bs, c :: cs, d :: ds, e :: es, f :: fs =>
      { r with rainfall := a, tmax := b, tmin := c, aveTemp := d, rh := e, dengue := f }
        :: rebuild t as bs cs ds es fs
  | _, _, _, _, _, _, _ => []

/-- What cleaner steps 3-4 jointly do to the RAINFALL column:
`fillna(0)`, then clamp negatives. -/
def rainPipe (l : List (Option ℚ)) : List (Option ℚ) := clampCol (fillRainfall l)

/-- What cleaner steps 3-4 jointly do to each of TMAX / TMIN / "Ave. Temp" /
RH: `ffill().bfill()`, then clamp negatives. -/
def tempPipe (l : List (Option ℚ)) : List (Option ℚ) := clampCol (ffillBfill l)

/-- What cleaner steps 3-4 jointly do to the DENGUE CASES column:
`ffill().fillna(0)`, then clamp negatives. -/
def denguePipe (l : List (Option ℚ)) : List (Option ℚ) := clampCol (fillDengue l)

/-- The cleaning transformation of `clean_data.py` (lines 25-75), S3 and
logging stripped.  Step 1 (dropping WIND_SPEED / WIND_DIRECTION) and step 5
(reordering the kept columns) are schema-level; the retained `Row` schema
already reflects them.  Step 2 derives DATE (= `dateKey`) and sorts by it;
step 3 fills each value column; step 4 clamps negatives to 0 in every numeric
column except YEAR/MONTH/DAY (DATE is datetime-typed, hence not among
`select_dtypes(['float64','int64'])`).  Both steps act column by column, so
per column the composite is clamp-after-fill. -/
def clean_data (t : List Row) : List Row :=
  let s := sortByDate t
  rebuild s
    (rainPipe (s.map Row.rainfall))
    (tempPipe (s.map Row.tmax))
    (tempPipe (s.map Row.tmin))
    (tempPipe (s.map Row.aveTemp))
    (tempPipe (s.map Row.rh))
    (denguePipe (s.map Row.dengue))

/-! ## Feature engineering (`create_features.py`) -/

/-- `Series.shift(n)`: cell `i` of the result is cell `i - n` of the input
for `i ≥ n`, and NaN for the first `n` rows (all rows when `n` exceeds the
length).  Length is preserved. -/
def shiftCol (n : Nat) (l : List (Option ℚ)) : List (Option ℚ) :=
  List.replicate (min n l.length) none ++ l.take (l.length - n)

/-- The trailing window `rolling(window=w)` inspects at row `i`: rows
`max (0, i+1-w) .. i` (truncated Nat subtraction realises the `max`). -/
def windowSlice (l : List (Option ℚ)) (w i : Nat) : List (Option ℚ) :=
  (l.take (i + 1)).drop (i + 1 - w)

/-- `Series.rolling(window=w, min_periods=1).mean()`: at each row, the mean
of the non-NaN cells of the trailing window; NaN when the window holds no
non-NaN cell (fewer than `min_periods = 1` observations). -/
def rollMeanCol (l : List (Option ℚ)) (w : Nat) : List (Option ℚ) :=
  (List.range l.length).map fun i =>
    let v := (windowSlice l w i).filterMap id
    if v.length = 0 then none else some (v.sum / (v.length : ℚ))

/-- `Series.rolling(window=w, min_periods=1).std()`, squared.  The source
stores the sample standard deviation (`ddof = 1`, an irrational square root
in general); over ℚ we record its square, the sample variance
`Σ (x - mean)² / (count - 1)`, which is NaN at exactly the same positions
(pandas yields NaN whenever fewer than two non-NaN observations are in the
window, since `0/0` arises at count one) and determines the source value as
its nonnegative square root. -/
def rollStdSqCol (l : List (Option ℚ)) (w : Nat) : List (Option ℚ) :=
  (List.range l.length).map fun i =>
    let v := (windowSlice l w i).filterMap id
    if v.length ≤ 1 then none else
      some ((v.map fun x => (x - v.sum / (v.length : ℚ)) ^ 2).sum / ((v.length : ℚ) - 1))

/-- NaN-propagating binary cell operation (pandas column arithmetic). -/
def cellOp (f : ℚ → ℚ → ℚ) : Option ℚ → Option ℚ → Option ℚ
  | some a, some b => some (f a b)
  | _, _ => none

/-! ### Calendar features

`df['DATE'].dt.isocalendar().week` and `.dt.quarter` are library calls; they
are modelled by a full ISO-8601 week computation and the month-derived
quarter.  On an invalid (NaT) date both yield a missing cell. -/

/-- Days since 1970-01-01 of a Gregorian date (days-from-civil algorithm).
All intermediate operands are arranged to be nonnegative for realistic
years, where Euclidean and truncating division agree. -/
def daysFromCivil (y m d : Int) : Int :=
  let y2 := if m ≤ 2 then y - 1 else y
  let era := (if 0 ≤ y2 then y2 else y2 - 399) / 400
  let yoe := y2 - era * 400
  let doy := (153 * ((m + 9) % 12) + 2) / 5 + d - 1
  let doe := yoe * 365 + yoe / 4 - yoe / 100 + doy
  era * 146097 + doe - 719468

/-- ISO day of week, Monday = 1 .. Sunday = 7 (1970-01-01 was a Thursday). -/
def isoDow (y m d : Int) : Int :=
  (daysFromCivil y m d + 3) % 7 + 1

/-- 1-based ordinal day of the year. -/
def dayOfYear (y m d : Int) : Int :=
  let off : Int :=
    if m == 1 then 0 else if m == 2 then 31 else if m == 3 then 59
    else if m == 4 then 90 else if m == 5 then 120 else if m == 6 then 151
    else if m == 7 then 181 else if m == 8 then 212 else if m == 9 then 243
    else if m == 10 then 273 else if m == 11 then 304 else 334
  off + d + (if isLeap y && 2 < m then 1 else 0)

/-- Whether ISO year `y` has 53 weeks. -/
def isoLongYear (y : Int) : Bool :=
  let p : Int → Int := fun x => (x + x / 4 - x / 100 + x / 400) % 7
  p y == 4 || p (y - 1) == 3

/-- ISO-8601 week number of a valid date (what `isocalendar().week` reports). -/
def isoWeek (y m d : Int) : Int :=
  let w := (10 + dayOfYear y m d - isoDow y m d) / 7
  if w = 0 then (if isoLongYear (y - 1) then 53 else 52)
  else if w = 53 ∧ ¬ isoLongYear y then 1
  else w

/-- `df['DATE'].dt.isocalendar().week` on one row (missing on NaT). -/
def weekCell (r : Row) : Option ℚ :=
  if validDate r.year r.month r.day then some ((isoWeek r.year r.month r.day : ℚ)) else none

/-- `df['DATE'].dt.quarter` on one row (missing on NaT). -/
def quarterCell (r : Row) : Option ℚ :=
  if validDate r.year r.month r.day then some (((r.month + 2) / 3 : Int) : ℚ) else none

/-- `df['MONTH'].isin([6,7,8,9,10]).astype(int)` on one row. -/
def rainySeasonCell (r : Row) : Option ℚ :=
  some (if r.month == 6 || r.month == 7 || r.month == 8 || r.month == 9 || r.month == 10
        then 1 else 0)

/-- The five weather variables the feature loops range over
(`weather_vars` in `create_features.py`), each with its column accessor. -/
def weather_vars : List (String × (Row → Option ℚ)) :=
  [("RAINFALL", Row.rainfall), ("TMAX", Row.tmax), ("TMIN", Row.tmin),
   ("Ave. Temp", Row.aveTemp), ("RH", Row.rh)]

/-- `lag_periods = [7, 14, 21]`. -/
def lag_periods : List Nat := [7, 14, 21]

/-- `rolling_windows = [7, 14]`. -/
def rolling_windows : List Nat := [7, 14]

/-- Output of the feature stage: the (sorted) input rows, whose original
columns are untouched, together with the derived columns in the order the
source assigns them (each entry is a fresh column name paired with its
cells). -/
structure FeatFrame where
  rows : List Row
  derived : List (String × List (Option ℚ))

/-- The feature-engineering transformation of `create_features.py`
(lines 24-98), S3 and logging stripped.  The input is re-sorted by DATE
(line 25); then lag columns, rolling statistics, interaction terms and
calendar features are appended in source order.  The `if var in df.columns`
presence guards are vacuous over the canonical cleaned schema, which always
carries all six value columns. -/
def create_lag_features (t : List Row) : FeatFrame :=
  let df := sortByDate t
  let lagW := (weather_vars.map fun p => lag_periods.map fun lag =>
      (p.1 ++ "_LAG" ++ toString lag, shiftCol lag (df.map p.2))).flatten
  let lagD := lag_periods.map fun lag =>
      ("DENGUE_CASES_LAG" ++ toString lag, shiftCol lag (df.map Row.dengue))
  let rollW := ((weather_vars.map fun p => rolling_windows.map fun w =>
      [(p.1 ++ "_ROLL_MEAN_" ++ toString w ++ "D", rollMeanCol (df.map p.2) w),
       (p.1 ++ "_ROLL_STD_" ++ toString w ++ "D", rollStdSqCol (df.map p.2) w)]).map
        List.flatten).flatten
  let rollD := rolling_windows.map fun w =>
      ("DENGUE_CASES_ROLL_MEAN_" ++ toString w ++ "D", rollMeanCol (df.map Row.dengue) w)
  let inter :=
    [("TEMP_RANGE", List.zipWith (cellOp (· - ·)) (df.map Row.tmax) (df.map Row.tmin)),
     ("RAIN_TEMP_INTERACTION",
        List.zipWith (cellOp (· * ·)) (df.map Row.rainfall) (df.map Row.aveTemp)),
     ("HUMIDITY_TEMP_INTERACTION",
        List.zipWith (cellOp (· * ·)) (df.map Row.rh) (df.map Row.aveTemp))]
  let cal :=
    [("WEEK_OF_YEAR", df.map weekCell),
     ("QUARTER", df.map quarterCell),
     ("IS_RAINY_SEASON", df.map rainySeasonCell)]
  ⟨df, lagW ++ lagD ++ rollW ++ rollD ++ inter ++ cal⟩

/-! ## Report generation (`generate_eda.py`) -/

/-- `b.isPrefixOf a` over char lists. -/
def startsWithL : List Char → List Char → Bool
  | [], _ => true
  | _ :: _, [] => false
  | a :: as, b :: bs => a == b && startsWithL as bs

/-- Whether `p` occurs as a contiguous sublist of the second argument. -/
def hasSubL (p : List Char) : List Char → Bool
  | [] => p.isEmpty
  | b :: bs => startsWithL p (b :: bs) || hasSubL p bs

/-- Python's substring test `pat in s`. -/
def strContains (s pat : String) : Bool := hasSubL pat.data s.data

/-- The calendar integer columns excluded from the correlation matrix
(`generate_eda.py` line 57). -/
def corrExcluded : List String := ["YEAR", "MONTH", "DAY", "WEEK_OF_YEAR", "QUARTER"]

/-- Column selection for the correlation heatmap (`generate_eda.py` lines
56-64): start from the numeric (`float64`/`int64`) column names in frame
order, drop the calendar integers; if more than 20 remain, keep every
"priority" column (name containing `DENGUE`, or not containing `LAG`) and
pad with the first `max(0, 20 - len(priority))` of the remaining names. -/
def selectCorrCols (numericCols : List String) : List String :=
  let nc := numericCols.filter fun c => !(corrExcluded.contains c)
  if 20 < nc.length then
    let priority := nc.filter fun c => strContains c "DENGUE" || !(strContains c "LAG")
    let other := nc.filter fun c => !(priority.contains c)
    priority ++ other.take (max 0 (20 - (priority.length : Int))).toNat
  else nc

/-- The numeric columns, in frame order, of the feature dataset the pipeline
itself feeds to the report stage: the cleaner's canonical layout minus the
datetime DATE column, followed by every column `create_lag_features` appends
(all parsed back from CSV as `float64`/`int64`). -/
def featureNumericCols : List String :=
  ["YEAR", "MONTH", "DAY", "RAINFALL", "TMAX", "TMIN", "Ave. Temp", "RH", "DENGUE CASES"] ++
  (create_lag_features []).derived.map Prod.fst

/-- A report-stage cell: a number, a parsed DATE, a month period (what
`dt.to_period('M')` yields), or missing. -/
inductive Cell where
  | num (q : ℚ)
  | date (y m d : Int)
  | period (y m : Int)
  | na
  deriving Repr, DecidableEq

/-- `Series.dt.to_period('M')` on one cell. -/
def toPeriodM : Cell → Cell
  | .date y m _ => .period y m
  | _ => .na

/-- The report stage's view of the feature dataset: named columns in frame
order (pandas column order). -/
abbrev EdaFrame : Type := List (String × List Cell)

/-- `df[name]`.  `generate_eda_frame` reads a column only after checking it
is present, so the empty-column fallback of this accessor is never
exercised there. -/
def getCol (df : EdaFrame) (name : String) : List Cell :=
  match df.lookup name with
  | some c => c
  | none => []

/-- `df[name] = v`: overwrite the column when present, else append it as the
last column (pandas column-assignment semantics). -/
def setCol (df : EdaFrame) (name : String) (v : List Cell) : EdaFrame :=
  if df.any (fun p => p.1 == name) then
    df.map fun p => if p.1 == name then (p.1, v) else p
  else df ++ [(name, v)]

/-- The columns `generate_eda` dereferences unconditionally before (or at)
line 202: `DATE` at the CSV parse (line 24, `parse_dates=['DATE']`) and in
every time-series plot; `DENGUE CASES`, `RAINFALL`, `TMAX`, `TMIN`,
`Ave. Temp` and `RH` in the time-series plots (lines 93-146), the
distribution plots (lines 168-183) and the monthly aggregation (lines
203-208).  The only guarded dereference is `Ave. Temp_ROLL_MEAN_7D`
(line 120).  A frame missing any of these columns raises a `KeyError` (or a
`parse_dates` error) that the top-level handler turns into exit status 1. -/
def edaRequiredCols : List String :=
  ["DATE", "DENGUE CASES", "RAINFALL", "TMAX", "TMIN", "Ave. Temp", "RH"]

/-- The net effect of `generate_eda` (lines 13-249) on the dataframe it
reads.  On a frame carrying every unconditionally dereferenced column the
run completes, and the one statement that writes into `df` is line 202,
`df['YEAR_MONTH'] = df['DATE'].dt.to_period('M')` (the `monthly_agg` groupby
result and the `summary` table are separate frames; nothing is ever written
back to storage).  On a frame missing one of those columns the first failing
dereference raises before line 202 runs, the job aborts, and the frame is
never mutated — modelled as an error carrying no result frame. -/
def generate_eda_frame (df : EdaFrame) : Except String EdaFrame :=
  if edaRequiredCols.all (fun n => df.any fun p => p.1 == n) then
    .ok (setCol df "YEAR_MONTH" ((getCol df "DATE").map toPeriodM))
  else .error "KeyError"

/-! ## Basic lemmas: lengths and `rebuild` structure -/

theorem ffillAux_length (c : Option ℚ) (l : List (Option ℚ)) :
    (ffillAux c l).length = l.length := by
  induction l generalizing c with
  | nil => rfl
  | cons x xs ih => cases x <;> simp [ffillAux, ih]

theorem ffill_length (l : List (Option ℚ)) : (ffill l).length = l.length :=
  ffillAux_length none l

theorem bfillStep_length (x : Option ℚ) (ys : List (Option ℚ)) :
    (bfillStep x ys).length = ys.length + 1 := by
  rcases x with _ | v <;> rcases ys with _ | ⟨y, ys⟩ <;> simp [bfillStep] <;>
    rcases y with _ | w <;> simp [bfillStep]

theorem bfill_length (l : List (Option ℚ)) : (bfill l).length = l.length := by
  induction l with
  | nil => rfl
  | cons x xs ih => simp [bfill, bfillStep_length, ih]

theorem ffillBfill_length (l : List (Option ℚ)) : (ffillBfill l).length = l.length := by
  simp [ffillBfill, bfill_length, ffill_length]

theorem fillRainfall_length (l : List (Option ℚ)) : (fillRainfall l).length = l.length := by
  simp [fillRainfall]

theorem fillDengue_length (l : List (Option ℚ)) : (fillDengue l).length = l.length := by
  simp [fillDengue, ffill_length]

theorem clampCol_length (l : List (Option ℚ)) : (clampCol l).length = l.length := by
  simp [clampCol]

theorem rebuild_length (t : List Row) (a b c d e f : List (Option ℚ))
    (ha : a.length = t.length) (hb : b.length = t.length) (hc : c.length = t.length)
    (hd : d.length = t.length) (he : e.length = t.length) (hf : f.length = t.length) :
    (rebuild t a b c d e f).length = t.length := by
  induction t generalizing a b c d e f with
  | nil => simp [rebuild]
  | cons r t ih =>
    rcases a with _ | ⟨a0, a⟩; · simp at ha
    rcases b with _ | ⟨b0, b⟩; · simp at hb
    rcases c with _ | ⟨c0, c⟩; · simp at hc
    rcases d with _ | ⟨d0, d⟩; · simp at hd
    rcases e with _ | ⟨e0, e⟩; · simp at he
    rcases f with _ | ⟨f0, f⟩; · simp at hf
    simp only [rebuild, List.length_cons]
    rw [ih] <;> simp_all

theorem rebuild_map_dateKey (t : List Row) (a b c d e f : List (Option ℚ))
    (ha : a.length = t.length) (hb : b.length = t.length) (hc : c.length = t.length)
    (hd : d.length = t.length) (he : e.length = t.length) (hf : f.length = t.length) :
    (rebuild t a b c d e f).map dateKey = t.map dateKey := by
  induction t generalizing a b c d e f with
  | nil => simp [rebuild]
  | cons r t ih =>
    rcases a with _ | ⟨a0, a⟩; · simp at ha
    rcases b with _ | ⟨b0, b⟩; · simp at hb
    rcases c with _ | ⟨c0, c⟩; · simp at hc
    rcases d with _ | ⟨d0, d⟩; · simp at hd
    rcases e with _ | ⟨e0, e⟩; · simp at he
    rcases f with _ | ⟨f0, f⟩; · simp at hf
    simp only [rebuild, List.map_cons]
    rw [ih] <;> simp_all [dateKey]

theorem mem_rebuild {r' : Row} {t : List Row} {a b c d e f : List (Option ℚ)}
    (h : r' ∈ rebuild t a b c d e f) :
    r'.rainfall ∈ a ∧ r'.tmax ∈ b ∧ r'.tmin ∈ c ∧
      r'.aveTemp ∈ d ∧ r'.rh ∈ e ∧ r'.dengue ∈ f := by
  induction t generalizing a b c d e f with
  | nil => simp [rebuild] at h
  | cons r t ih =>
    rcases a with _ | ⟨a0, a⟩; · simp [rebuild] at h
    rcases b with _ | ⟨b0, b⟩; · simp [rebuild] at h
    rcases c with _ | ⟨c0, c⟩; · simp [rebuild] at h
    rcases d with _ | ⟨d0, d⟩; · simp [rebuild] at h
    rcases e with _ | ⟨e0, e⟩; · simp [rebuild] at h
    rcases f with _ | ⟨f0, f⟩; · simp [rebuild] at h
    simp only [rebuild, List.mem_cons] at h
    rcases h with h | h
    · subst h; simp
    · have := ih h
      simp_all [List.mem_cons]

/-- Columns can be read back off a rebuilt table (stated for all six value
columns at once). -/
theorem rebuild_map_cols (t : List Row) (a b c d e f : List (Option ℚ))
    (ha : a.length = t.length) (hb : b.length = t.length) (hc : c.length = t.length)
    (hd : d.length = t.length) (he : e.length = t.length) (hf : f.length = t.length) :
    (rebuild t a b c d e f).map Row.rainfall = a ∧
    (rebuild t a b c d e f).map Row.tmax = b ∧
    (rebuild t a b c d e f).map Row.tmin = c ∧
    (rebuild t a b c d e f).map Row.aveTemp = d ∧
    (rebuild t a b c d e f).map Row.rh = e ∧
    (rebuild t a b c d e f).map Row.dengue = f := by
  induction t generalizing a b c d e f with
  | nil =>
    rcases a with _ | ⟨a0, a⟩; · simp_all [rebuild]
    simp at ha
  | cons r t ih =>
    rcases a with _ | ⟨a0, a⟩; · simp at ha
    rcases b with _ | ⟨b0, b⟩; · simp at hb
    rcases c with _ | ⟨c0, c⟩; · simp at hc
    rcases d with _ | ⟨d0, d⟩; · simp at hd
    rcases e with _ | ⟨e0, e⟩; · simp at he
    rcases f with _ | ⟨f0, f⟩; · simp at hf
    simp only [rebuild, List.map_cons]
    have := ih a b c d e f (by simpa using ha) (by simpa using hb) (by simpa using hc)
      (by simpa using hd) (by simpa using he) (by simpa using hf)
    simp_all

/-- Rebuilding a rebuilt table overwrites the first rebuild. -/
theorem rebuild_rebuild (t : List Row) (a b c d e f a' b' c' d' e' f' : List (Option ℚ))
    (ha : a.length = t.length) (hb : b.length = t.length) (hc : c.length = t.length)
    (hd : d.length = t.length) (he : e.length = t.length) (hf : f.length = t.length) :
    rebuild (rebuild t a b c d e f) a' b' c' d' e' f' = rebuild t a' b' c' d' e' f' := by
  induction t generalizing a b c d e f a' b' c' d' e' f' with
  | nil =>
    rcases a with _ | ⟨a0, a⟩; · simp [rebuild]
    simp at ha
  | cons r t ih =>
    rcases a with _ | ⟨a0, a⟩; · simp at ha
    rcases b with _ | ⟨b0, b⟩; · simp at hb
    rcases c with _ | ⟨c0, c⟩; · simp at hc
    rcases d with _ | ⟨d0, d⟩; · simp at hd
    rcases e with _ | ⟨e0, e⟩; · simp at he
    rcases f with _ | ⟨f0, f⟩; · simp at hf
    rcases a' with _ | ⟨a0', a'⟩; · simp [rebuild]
    rcases b' with _ | ⟨b0', b'⟩; · simp [rebuild]
    rcases c' with _ | ⟨c0', c'⟩; · simp [rebuild]
    rcases d' with _ | ⟨d0', d'⟩; · simp [rebuild]
    rcases e' with _ | ⟨e0', e'⟩; · simp [rebuild]
    rcases f' with _ | ⟨f0', f'⟩; · simp [rebuild]
    simp only [rebuild]
    rw [ih] <;> simp_all

theorem rainPipe_length (l : List (Option ℚ)) : (rainPipe l).length = l.length := by
  simp [rainPipe, clampCol_length, fillRainfall_length]

theorem tempPipe_length (l : List (Option ℚ)) : (tempPipe l).length = l.length := by
  simp [tempPipe, clampCol_length, ffillBfill_length]

theorem denguePipe_length (l : List (Option ℚ)) : (denguePipe l).length = l.length := by
  simp [denguePipe, clampCol_length, fillDengue_length]

theorem sortByDate_length (t : List Row) : (sortByDate t).length = t.length :=
  List.length_insertionSort rowle t

theorem sortByDate_sorted (t : List Row) : (sortByDate t).Sorted rowle :=
  List.sorted_insertionSort rowle t

theorem clean_data_eq (t : List Row) :
    clean_data t = rebuild (sortByDate t)
      (rainPipe ((sortByDate t).map Row.rainfall))
      (tempPipe ((sortByDate t).map Row.tmax))
      (tempPipe ((sortByDate t).map Row.tmin))
      (tempPipe ((sortByDate t).map Row.aveTemp))
      (tempPipe ((sortByDate t).map Row.rh))
      (denguePipe ((sortByDate t).map Row.dengue)) := rfl

theorem clean_data_length (t : List Row) : (clean_data t).length = t.length := by
  rw [clean_data_eq,
    rebuild_length _ _ _ _ _ _ _ (by simp [rainPipe_length]) (by simp [tempPipe_length])
      (by simp [tempPipe_length]) (by simp [tempPipe_length]) (by simp [tempPipe_length])
      (by simp [denguePipe_length]), sortByDate_length]

theorem clean_data_map_dateKey (t : List Row) :
    (clean_data t).map dateKey = (sortByDate t).map dateKey := by
  rw [clean_data_eq]
  exact rebuild_map_dateKey _ _ _ _ _ _ _ (by simp [rainPipe_length])
    (by simp [tempPipe_length]) (by simp [tempPipe_length]) (by simp [tempPipe_length])
    (by simp [tempPipe_length]) (by simp [denguePipe_length])

/-! ## Claim C7: cleaner output is sorted by DATE, and C8: no rows deleted -/

/-- The cleaner's output is sorted by the derived DATE: the value fills
after the sort never touch YEAR/MONTH/DAY. -/
theorem clean_data_sorted_aux (t : List Row) : (clean_data t).Sorted rowle := by
  have hs : (sortByDate t).Sorted rowle := sortByDate_sorted t
  have hmap : (clean_data t).map dateKey = (sortByDate t).map dateKey :=
    clean_data_map_dateKey t
  unfold List.Sorted rowle at *
  have h1 : ((sortByDate t).map dateKey).Pairwise (fun x y => keyLE x y = true) :=
    (List.pairwise_map).2 hs
  rw [← hmap] at h1
  exact (List.pairwise_map).1 h1

/-- Claim C7.  For every input dataset, the cleaner's output rows are sorted
non-decreasing by the derived DATE field (`keyLE` on `dateKey`; missing
dates, NaT, sort last, as `sort_values`'s `na_position='last'` places
them). -/
theorem clean_data_sorted_by_date (t : List Row) : (clean_data t).Sorted rowle :=
  clean_data_sorted_aux t

/-- Claim C8.  No transformation stage deletes rows: the cleaner's output and the
feature builder's output have exactly as many rows as their inputs. -/
theorem no_rows_deleted (t : List Row) :
    (clean_data t).length = t.length ∧ (create_lag_features t).rows.length = t.length := by
  refine ⟨clean_data_length t, ?_⟩
  show (sortByDate t).length = t.length
  exact sortByDate_length t

/-! ## Claims C5 and C6: no negatives after cleaning; RAINFALL and
DENGUE CASES fully populated -/

theorem clampCell_nonneg {c : Option ℚ} {v : ℚ} (h : clampCell c = some v) : 0 ≤ v := by
  rcases c with _ | u
  · simp [clampCell] at h
  · simp only [clampCell, Option.some.injEq] at h
    subst h
    by_cases hu : u < 0 <;> simp [hu]
    exact le_of_not_lt hu

theorem mem_clampCol_nonneg {x : Option ℚ} {l : List (Option ℚ)} (hx : x ∈ clampCol l)
    {v : ℚ} (hv : x = some v) : 0 ≤ v := by
  rcases List.mem_map.1 hx with ⟨c, _, rfl⟩
  exact clampCell_nonneg hv

theorem fillna0_isSome (c : Option ℚ) : (fillna0 c).isSome = true := by
  rcases c with _ | v <;> rfl

theorem clampCell_isSome {c : Option ℚ} (h : c.isSome = true) :
    (clampCell c).isSome = true := by
  rcases c with _ | v
  · simp at h
  · rfl

theorem mem_rainPipe_isSome {x : Option ℚ} {l : List (Option ℚ)} (hx : x ∈ rainPipe l) :
    x.isSome = true := by
  rcases List.mem_map.1 hx with ⟨c, hc, rfl⟩
  rcases List.mem_map.1 hc with ⟨c0, _, rfl⟩
  exact clampCell_isSome (fillna0_isSome c0)

theorem mem_denguePipe_isSome {x : Option ℚ} {l : List (Option ℚ)} (hx : x ∈ denguePipe l) :
    x.isSome = true := by
  rcases List.mem_map.1 hx with ⟨c, hc, rfl⟩
  rcases List.mem_map.1 hc with ⟨c0, _, rfl⟩
  exact clampCell_isSome (fillna0_isSome c0)

/-- Claim C5.  After cleaning, no numeric column except YEAR/MONTH/DAY holds a
negative value in any row (a missing cell holds no value at all). -/
theorem clean_data_no_negatives (t : List Row) (r : Row) (hr : r ∈ clean_data t) :
    (∀ v, r.rainfall = some v → 0 ≤ v) ∧ (∀ v, r.tmax = some v → 0 ≤ v) ∧
    (∀ v, r.tmin = some v → 0 ≤ v) ∧ (∀ v, r.aveTemp = some v → 0 ≤ v) ∧
    (∀ v, r.rh = some v → 0 ≤ v) ∧ (∀ v, r.dengue = some v → 0 ≤ v) := by
  rw [clean_data_eq] at hr
  obtain ⟨h1, h2, h3, h4, h5, h6⟩ := mem_rebuild hr
  exact ⟨fun v hv => mem_clampCol_nonneg h1 hv, fun v hv => mem_clampCol_nonneg h2 hv,
    fun v hv => mem_clampCol_nonneg h3 hv, fun v hv => mem_clampCol_nonneg h4 hv,
    fun v hv => mem_clampCol_nonneg h5 hv, fun v hv => mem_clampCol_nonneg h6 hv⟩

/-- Claim C6.  After cleaning, the RAINFALL and DENGUE CASES columns hold a value
in every row (no missing cells). -/
theorem clean_data_fills_rain_dengue (t : List Row) (r : Row) (hr : r ∈ clean_data t) :
    r.rainfall.isSome = true ∧ r.dengue.isSome = true := by
  rw [clean_data_eq] at hr
  obtain ⟨h1, _, _, _, _, h6⟩ := mem_rebuild hr
  exact ⟨mem_rainPipe_isSome h1, mem_denguePipe_isSome h6⟩

/-- Row constructor shorthand for the concrete example datasets. -/
def mkRow (y m d : Int) (rain tx tn av rh den : Option ℚ) : Row :=
  ⟨y, m, d, rain, tx, tn, av, rh, den⟩

/-- The spec's TMAX example dataset: TMAX = [30, 28, -5, 32] on four
consecutive dates. -/
def exNegTable : List Row :=
  [mkRow 2020 1 1 (some 0) (some 30) (some 25) (some 27) (some 80) (some 1),
   mkRow 2020 1 2 (some 0) (some 28) (some 24) (some 26) (some 81) (some 2),
   mkRow 2020 1 3 (some 0) (some (-5)) (some 23) (some 25) (some 82) (some 3),
   mkRow 2020 1 4 (some 0) (some 32) (some 26) (some 28) (some 83) (some 4)]

/-- Witness for C5 at the spec's concrete example: cleaning
TMAX = [30, 28, -5, 32] yields [30, 28, 0, 32], and the clamped cell is
nonnegative by `clean_data_no_negatives` applied to the third cleaned row. -/
theorem clean_data_no_negatives_witness :
    (clean_data exNegTable).map Row.tmax = [some 30, some 28, some 0, some 32] ∧
      (0 : ℚ) ≤ 0 := by
  constructor
  · decide
  · exact (clean_data_no_negatives exNegTable
      (mkRow 2020 1 3 (some 0) (some 0) (some 23) (some 25) (some 82) (some 3))
      (by decide)).2.1 0 rfl

/-- The spec's missing-value example dataset: DENGUE CASES =
[NaN, NaN, 3, NaN, 5] with some RAINFALL cells missing as well. -/
def exNaTable : List Row :=
  [mkRow 2020 1 1 none (some 30) (some 25) (some 27) (some 80) none,
   mkRow 2020 1 2 (some 1) (some 30) (some 25) (some 27) (some 80) none,
   mkRow 2020 1 3 none (some 30) (some 25) (some 27) (some 80) (some 3),
   mkRow 2020 1 4 (some 2) (some 30) (some 25) (some 27) (some 80) none,
   mkRow 2020 1 5 none (some 30) (some 25) (some 27) (some 80) (some 5)]

/-- Witness for C6 at the spec's concrete example: case counts
[NaN, NaN, 3, NaN, 5] become [0, 0, 3, 3, 5] (forward fill, leading NaN → 0),
missing RAINFALL cells become 0, and both columns are fully populated — the
`isSome` facts by `clean_data_fills_rain_dengue` applied to the first cleaned
row. -/
theorem clean_data_fills_rain_dengue_witness :
    (clean_data exNaTable).map Row.dengue = [some 0, some 0, some 3, some 3, some 5] ∧
    (clean_data exNaTable).map Row.rainfall = [some 0, some 1, some 0, some 2, some 0] ∧
    ((mkRow 2020 1 1 (some 0) (some 30) (some 25) (some 27) (some 80)
        (some 0)).rainfall.isSome = true ∧
     (mkRow 2020 1 1 (some 0) (some 30) (some 25) (some 27) (some 80)
        (some 0)).dengue.isSome = true) := by
  refine ⟨by decide, by decide, ?_⟩
  exact clean_data_fills_rain_dengue exNaTable _ (by decide)

/-! ## Claim C2: the cleaner is idempotent

The column fills are idempotent because each filled column ends up either
fully populated (when the input column held at least one value) or fully
missing (when it held none), and every fill fixes both kinds of column. -/

/-- A column with no missing cell. -/
def noneFree (l : List (Option ℚ)) : Prop := ∀ x ∈ l, x.isSome = true

/-- A fully missing column. -/
def allNone (l : List (Option ℚ)) : Prop := ∀ x ∈ l, x = none

theorem allNone_of_not_ex {l : List (Option ℚ)} (h : ¬ ∃ x ∈ l, x.isSome = true) :
    allNone l := by
  intro x hx
  rcases x with _ | v
  · rfl
  · exact absurd ⟨some v, hx, rfl⟩ h

theorem map_self {f : Option ℚ → Option ℚ} :
    ∀ l : List (Option ℚ), (∀ x ∈ l, f x = x) → l.map f = l := by
  intro l h
  induction l with
  | nil => rfl
  | cons x xs ih =>
    simp only [List.map_cons, h x (List.mem_cons_self x xs)]
    rw [ih fun y hy => h y (List.mem_cons_of_mem x hy)]

theorem ffillAux_of_noneFree {l : List (Option ℚ)} (h : noneFree l) (c : Option ℚ) :
    ffillAux c l = l := by
  induction l generalizing c with
  | nil => rfl
  | cons x xs ih =>
    rcases x with _ | v
    · exact absurd (h none (List.mem_cons_self _ _)) (by simp)
    · simp only [ffillAux]
      rw [ih fun y hy => h y (List.mem_cons_of_mem _ hy)]

theorem ffill_of_noneFree {l : List (Option ℚ)} (h : noneFree l) : ffill l = l :=
  ffillAux_of_noneFree h none

theorem ffillAux_allNone {l : List (Option ℚ)} (h : allNone l) : ffillAux none l = l := by
  induction l with
  | nil => rfl
  | cons x xs ih =>
    have hx := h x (List.mem_cons_self _ _)
    subst hx
    simp only [ffillAux]
    rw [ih fun y hy => h y (List.mem_cons_of_mem _ hy)]

theorem noneFree_ffillAux_some (l : List (Option ℚ)) (v : ℚ) :
    noneFree (ffillAux (some v) l) := by
  induction l generalizing v with
  | nil => intro x hx; simp [ffillAux] at hx
  | cons x xs ih =>
    rcases x with _ | w <;> intro y hy <;> simp only [ffillAux, List.mem_cons] at hy <;>
      rcases hy with rfl | hy <;> first | rfl | exact ih _ y hy

/-- A forward-filled column with at least one value splits into its leading
missing cells followed by a fully populated suffix. -/
theorem ffill_shape {l : List (Option ℚ)} (h : ∃ x ∈ l, x.isSome = true) :
    ∃ k v rest, ffill l = List.replicate k none ++ some v :: rest ∧ noneFree rest := by
  induction l with
  | nil => simp at h
  | cons x xs ih =>
    rcases x with _ | v
    · have hxs : ∃ x ∈ xs, x.isSome = true := by
        rcases h with ⟨y, hy, hsome⟩
        rcases List.mem_cons.1 hy with rfl | hy
        · simp at hsome
        · exact ⟨y, hy, hsome⟩
      rcases ih hxs with ⟨k, v, rest, heq, hnf⟩
      refine ⟨k + 1, v, rest, ?_, hnf⟩
      show ffillAux none (none :: xs) = _
      simp only [ffillAux, List.replicate_succ, List.cons_append]
      rw [show ffillAux none xs = ffill xs from rfl, heq]
    · exact ⟨0, v, ffillAux (some v) xs, rfl, noneFree_ffillAux_some xs v⟩

theorem bfillStep_some (v : ℚ) (ys : List (Option ℚ)) :
    bfillStep (some v) ys = some v :: ys := by
  rcases ys with _ | ⟨y, ys⟩
  · rfl
  · rcases y with _ | w <;> rfl

theorem bfill_of_noneFree {l : List (Option ℚ)} (h : noneFree l) : bfill l = l := by
  induction l with
  | nil => rfl
  | cons x xs ih =>
    rcases x with _ | v
    · exact absurd (h none (List.mem_cons_self _ _)) (by simp)
    · simp only [bfill]
      rw [ih fun y hy => h y (List.mem_cons_of_mem _ hy), bfillStep_some]

theorem bfill_allNone {l : List (Option ℚ)} (h : allNone l) : bfill l = l := by
  induction l with
  | nil => rfl
  | cons x xs ih =>
    have hx := h x (List.mem_cons_self _ _)
    subst hx
    simp only [bfill]
    rw [ih fun y hy => h y (List.mem_cons_of_mem _ hy)]
    rcases hxs : xs with _ | ⟨y, ys⟩
    · rfl
    · have hy := h y (by simp [hxs])
      subst hy
      rfl

/-- Backward-filling missing cells followed by a populated nonempty suffix
yields a fully populated column. -/
theorem bfill_replicate_noneFree :
    ∀ (k : Nat) (m : List (Option ℚ)), noneFree m → m ≠ [] →
      ∃ v ys, bfill (List.replicate k none ++ m) = some v :: ys ∧
        noneFree (some v :: ys) := by
  intro k
  induction k with
  | zero =>
    intro m hm hne
    rcases m with _ | ⟨x, xs⟩
    · exact absurd rfl hne
    rcases x with _ | v
    · exact absurd (hm none (List.mem_cons_self _ _)) (by simp)
    · refine ⟨v, xs, ?_, hm⟩
      simpa using bfill_of_noneFree hm
  | succ k ih =>
    intro m hm hne
    rcases ih m hm hne with ⟨v, ys, heq, hnf⟩
    refine ⟨v, some v :: ys, ?_, ?_⟩
    · rw [List.replicate_succ, List.cons_append]
      show bfillStep none (bfill (List.replicate k none ++ m)) = _
      rw [heq]
      rfl
    · intro x hx
      rcases List.mem_cons.1 hx with rfl | hx
      · rfl
      · exact hnf x hx

theorem noneFree_ffillBfill {l : List (Option ℚ)} (h : ∃ x ∈ l, x.isSome = true) :
    noneFree (ffillBfill l) := by
  rcases ffill_shape h with ⟨k, v, rest, heq, hnf⟩
  have hnf' : noneFree (some v :: rest) := by
    intro x hx
    rcases List.mem_cons.1 hx with rfl | hx
    · rfl
    · exact hnf x hx
  rcases bfill_replicate_noneFree k (some v :: rest) hnf' (by simp) with ⟨w, ys, heq', hnf''⟩
  show noneFree (bfill (ffill l))
  rw [heq, heq']
  exact hnf''

theorem ffillBfill_of_noneFree {l : List (Option ℚ)} (h : noneFree l) :
    ffillBfill l = l := by
  unfold ffillBfill
  rw [ffill_of_noneFree h, bfill_of_noneFree h]

theorem ffillBfill_allNone {l : List (Option ℚ)} (h : allNone l) : ffillBfill l = l := by
  unfold ffillBfill
  rw [show ffill l = l from ffillAux_allNone h, bfill_allNone h]

theorem clampCell_clampCell (c : Option ℚ) : clampCell (clampCell c) = clampCell c := by
  rcases c with _ | v
  · rfl
  · by_cases hv : v < 0 <;> simp [clampCell, hv]

theorem clampCol_clampCol (l : List (Option ℚ)) : clampCol (clampCol l) = clampCol l := by
  unfold clampCol
  rw [List.map_map]
  exact congrFun (congrArg List.map (funext clampCell_clampCell)) l

theorem clampCol_noneFree {l : List (Option ℚ)} (h : noneFree l) : noneFree (clampCol l) := by
  intro x hx
  rcases List.mem_map.1 hx with ⟨c, hc, rfl⟩
  exact clampCell_isSome (h c hc)

theorem clampCol_allNone {l : List (Option ℚ)} (h : allNone l) : clampCol l = l :=
  map_self l fun x hx => by rw [h x hx]; rfl

theorem noneFree_map_fillna0 (l : List (Option ℚ)) : noneFree (l.map fillna0) := by
  intro x hx
  rcases List.mem_map.1 hx with ⟨c, _, rfl⟩
  exact fillna0_isSome c

theorem map_fillna0_of_noneFree {l : List (Option ℚ)} (h : noneFree l) :
    l.map fillna0 = l :=
  map_self l fun x hx => by
    rcases x with _ | v
    · exact absurd (h none hx) (by simp)
    · rfl

theorem rainPipe_noneFree (l : List (Option ℚ)) : noneFree (rainPipe l) :=
  clampCol_noneFree (noneFree_map_fillna0 l)

theorem denguePipe_noneFree (l : List (Option ℚ)) : noneFree (denguePipe l) :=
  clampCol_noneFree (noneFree_map_fillna0 (ffill l))

theorem rainPipe_idem (l : List (Option ℚ)) : rainPipe (rainPipe l) = rainPipe l := by
  show clampCol ((rainPipe l).map fillna0) = rainPipe l
  rw [map_fillna0_of_noneFree (rainPipe_noneFree l)]
  exact clampCol_clampCol _

theorem denguePipe_idem (l : List (Option ℚ)) : denguePipe (denguePipe l) = denguePipe l := by
  show clampCol ((ffill (denguePipe l)).map fillna0) = denguePipe l
  rw [ffill_of_noneFree (denguePipe_noneFree l),
    map_fillna0_of_noneFree (denguePipe_noneFree l)]
  exact clampCol_clampCol _

theorem tempPipe_idem (l : List (Option ℚ)) : tempPipe (tempPipe l) = tempPipe l := by
  by_cases h : ∃ x ∈ l, x.isSome = true
  · have hnf : noneFree (tempPipe l) := clampCol_noneFree (noneFree_ffillBfill h)
    show clampCol (ffillBfill (tempPipe l)) = tempPipe l
    rw [ffillBfill_of_noneFree hnf]
    show clampCol (clampCol (ffillBfill l)) = _
    exact clampCol_clampCol _
  · have hall : allNone l := allNone_of_not_ex h
    have hl : tempPipe l = l := by
      show clampCol (ffillBfill l) = l
      rw [ffillBfill_allNone hall, clampCol_allNone hall]
    rw [hl, hl]

/-- A table rebuilt from its own value columns is itself. -/
theorem rebuild_self (t : List Row) :
    rebuild t (t.map Row.rainfall) (t.map Row.tmax) (t.map Row.tmin)
      (t.map Row.aveTemp) (t.map Row.rh) (t.map Row.dengue) = t := by
  induction t with
  | nil => rfl
  | cons r t ih =>
    simp only [List.map_cons, rebuild, ih]

/-- Claim C2.  The cleaner is idempotent: cleaning its own output changes
nothing — the output is already sorted, fully filled where fillable, and
nonnegative, so every step of a second pass fixes it. -/
theorem clean_data_idempotent (t : List Row) : clean_data (clean_data t) = clean_data t := by
  have hsort : sortByDate (clean_data t) = clean_data t :=
    (clean_data_sorted_aux t).insertionSort_eq
  have hlen : ∀ g : Row → Option ℚ,
      ((sortByDate t).map g).length = (sortByDate t).length := fun g => List.length_map _ g
  obtain ⟨e1, e2, e3, e4, e5, e6⟩ := rebuild_map_cols (sortByDate t)
    (rainPipe ((sortByDate t).map Row.rainfall))
    (tempPipe ((sortByDate t).map Row.tmax))
    (tempPipe ((sortByDate t).map Row.tmin))
    (tempPipe ((sortByDate t).map Row.aveTemp))
    (tempPipe ((sortByDate t).map Row.rh))
    (denguePipe ((sortByDate t).map Row.dengue))
    (by rw [rainPipe_length, hlen]) (by rw [tempPipe_length, hlen])
    (by rw [tempPipe_length, hlen]) (by rw [tempPipe_length, hlen])
    (by rw [tempPipe_length, hlen]) (by rw [denguePipe_length, hlen])
  rw [← clean_data_eq] at e1 e2 e3 e4 e5 e6
  calc clean_data (clean_data t)
      = rebuild (sortByDate (clean_data t))
          (rainPipe ((sortByDate (clean_data t)).map Row.rainfall))
          (tempPipe ((sortByDate (clean_data t)).map Row.tmax))
          (tempPipe ((sortByDate (clean_data t)).map Row.tmin))
          (tempPipe ((sortByDate (clean_data t)).map Row.aveTemp))
          (tempPipe ((sortByDate (clean_data t)).map Row.rh))
          (denguePipe ((sortByDate (clean_data t)).map Row.dengue)) := clean_data_eq _
    _ = rebuild (clean_data t)
          (rainPipe ((clean_data t).map Row.rainfall))
          (tempPipe ((clean_data t).map Row.tmax))
          (tempPipe ((clean_data t).map Row.tmin))
          (tempPipe ((clean_data t).map Row.aveTemp))
          (tempPipe ((clean_data t).map Row.rh))
          (denguePipe ((clean_data t).map Row.dengue)) := by rw [hsort]
    _ = rebuild (clean_data t)
          ((clean_data t).map Row.rainfall)
          ((clean_data t).map Row.tmax)
          ((clean_data t).map Row.tmin)
          ((clean_data t).map Row.aveTemp)
          ((clean_data t).map Row.rh)
          ((clean_data t).map Row.dengue) := by
            rw [e1, e2, e3, e4, e5, e6, rainPipe_idem, tempPipe_idem, tempPipe_idem,
              tempPipe_idem, tempPipe_idem, denguePipe_idem, ← e1, ← e2, ← e3, ← e4,
              ← e5, ← e6]
    _ = clean_data t := rebuild_self _

/-! ## Claim C4: lag columns shift by exactly `lag` rows -/

theorem shiftCol_getElem_lt {n i : Nat} (l : List (Option ℚ)) (hi : i < l.length)
    (hin : i < n) : (shiftCol n l)[i]? = some none := by
  unfold shiftCol
  rw [List.getElem?_append_left (by simp; omega), List.getElem?_replicate,
    if_pos (by omega)]

theorem shiftCol_getElem_ge {n i : Nat} (l : List (Option ℚ)) (hi : i < l.length)
    (hin : n ≤ i) : (shiftCol n l)[i]? = l[i - n]? := by
  unfold shiftCol
  rw [List.getElem?_append, List.length_replicate]
  rw [if_neg (by omega)]
  have : min n l.length = n := by omega
  rw [this, List.getElem?_take, if_pos (by omega)]

/-- The lagged variables of the feature stage: the five weather variables
(whose column-name stem is the variable name itself) from the first loop,
then DENGUE CASES with stem `DENGUE_CASES` from the second. -/
def lag_specs : List (String × (Row → Option ℚ)) :=
  weather_vars ++ [("DENGUE_CASES", Row.dengue)]

/-- Claim C4.  For every cleaned input dataset, every lagged variable and every
lag `n ∈ {7, 14, 21}`: the feature builder's lag column for that variable is
`shiftCol n` of the variable's column in DATE-sorted order, whose row `i`
holds the variable's value at row `i - n` when `i ≥ n` and is missing when
`i < n`. -/
theorem lag_col_shifts (t : List Row) (p : String × (Row → Option ℚ))
    (hp : p ∈ lag_specs) (n : Nat) (hn : n ∈ lag_periods) (i : Nat) (hi : i < t.length) :
    (create_lag_features t).derived.lookup (p.1 ++ "_LAG" ++ toString n) =
        some (shiftCol n ((sortByDate t).map p.2)) ∧
    (i < n → (shiftCol n ((sortByDate t).map p.2))[i]? = some none) ∧
    (n ≤ i →
      (shiftCol n ((sortByDate t).map p.2))[i]? = ((sortByDate t).map p.2)[i - n]?) := by
  have hlen : ((sortByDate t).map p.2).length = t.length := by
    rw [List.length_map, sortByDate_length]
  refine ⟨?_, fun h => shiftCol_getElem_lt _ (by omega) h,
    fun h => shiftCol_getElem_ge _ (by omega) h⟩
  simp only [lag_specs, weather_vars, List.mem_append, List.mem_cons,
    List.mem_singleton, List.not_mem_nil, or_false] at hp
  rcases hp with (rfl | rfl | rfl | rfl | rfl) | rfl <;>
    simp only [lag_periods, List.mem_cons, List.not_mem_nil, or_false] at hn <;>
      rcases hn with rfl | rfl | rfl <;> rfl

/-- 10-row example table: DATE 2020-01-01 .. 2020-01-10 with
RAINFALL = [0, 5, 0, 0, 10, 0, 0, 0, 0, 20]. -/
def exRollTable : List Row :=
  [mkRow 2020 1 1 (some 0) (some 30) (some 25) (some 27) (some 80) (some 1),
   mkRow 2020 1 2 (some 5) (some 30) (some 25) (some 27) (some 80) (some 1),
   mkRow 2020 1 3 (some 0) (some 30) (some 25) (some 27) (some 80) (some 1),
   mkRow 2020 1 4 (some 0) (some 30) (some 25) (some 27) (some 80) (some 1),
   mkRow 2020 1 5 (some 10) (some 30) (some 25) (some 27) (some 80) (some 1),
   mkRow 2020 1 6 (some 0) (some 30) (some 25) (some 27) (some 80) (some 1),
   mkRow 2020 1 7 (some 0) (some 30) (some 25) (some 27) (some 80) (some 1),
   mkRow 2020 1 8 (some 0) (some 30) (some 25) (some 27) (some 80) (some 1),
   mkRow 2020 1 9 (some 0) (some 30) (some 25) (some 27) (some 80) (some 1),
   mkRow 2020 1 10 (some 20) (some 30) (some 25) (some 27) (some 80) (some 1)]

/-- Witness for C4 on the example table: `RAINFALL_LAG7` is the shift of the
sorted RAINFALL column; at row 8 it repeats row 1 (value 5), at row 3 it is
missing. -/
theorem lag_col_shifts_witness :
    (create_lag_features exRollTable).derived.lookup "RAINFALL_LAG7" =
        some (shiftCol 7 ((sortByDate exRollTable).map Row.rainfall)) ∧
    (shiftCol 7 ((sortByDate exRollTable).map Row.rainfall))[8]? =
      ((sortByDate exRollTable).map Row.rainfall)[1]? ∧
    (shiftCol 7 ((sortByDate exRollTable).map Row.rainfall))[3]? = some none ∧
    ((sortByDate exRollTable).map Row.rainfall)[1]? = some (some 5) := by
  have h := lag_col_shifts exRollTable ("RAINFALL", Row.rainfall)
    (by simp [lag_specs, weather_vars]) 7 (by simp [lag_periods]) 8 (by decide)
  have h3 := lag_col_shifts exRollTable ("RAINFALL", Row.rainfall)
    (by simp [lag_specs, weather_vars]) 7 (by simp [lag_periods]) 3 (by decide)
  exact ⟨h.1, h.2.2 (by decide), h3.2.1 (by decide), by decide⟩

/-! ## Claim C3: rolling means are trailing-window arithmetic means -/

/-- On a fully populated column, the rolling mean at row `i` is the
arithmetic mean of the values at rows `max (0, i+1-w) .. i`. -/
theorem rollMeanCol_getElem (q : List ℚ) (w i : Nat) (hw : 0 < w) (hi : i < q.length) :
    (rollMeanCol (q.map some) w)[i]? =
      some (some (((q.take (i + 1)).drop (i + 1 - w)).sum /
        ((((q.take (i + 1)).drop (i + 1 - w)).length : ℚ)))) := by
  unfold rollMeanCol windowSlice
  rw [List.getElem?_map, List.getElem?_range (by simpa using hi)]
  have hslice : ((q.map some).take (i + 1)).drop (i + 1 - w) =
      ((q.take (i + 1)).drop (i + 1 - w)).map some := by
    rw [List.map_drop, List.map_take]
  rw [Option.map_some', hslice, List.filterMap_map, Function.id_comp,
    List.filterMap_some]
  have hlen : ((q.take (i + 1)).drop (i + 1 - w)).length ≠ 0 := by
    rw [List.length_drop, List.length_take]
    omega
  simp only [if_neg hlen]

/-- Claim C3.  For every cleaned input dataset whose weather column X is fully
populated (the sorted X column reads `q.map some` for a plain value list
`q`), every window `w ∈ {7, 14}` and every row index `i`: the feature
builder's `X_ROLL_MEAN_wD` column is `rollMeanCol` of the sorted column, and
its row `i` holds the arithmetic mean of the X values at rows
`max (0, i-w+1) .. i`. -/
theorem roll_mean_is_window_mean (t : List Row) (p : String × (Row → Option ℚ))
    (hp : p ∈ weather_vars) (w : Nat) (hw : w ∈ rolling_windows)
    (q : List ℚ) (hq : (sortByDate t).map p.2 = q.map some)
    (i : Nat) (hi : i < t.length) :
    (create_lag_features t).derived.lookup (p.1 ++ "_ROLL_MEAN_" ++ toString w ++ "D") =
        some (rollMeanCol ((sortByDate t).map p.2) w) ∧
    (rollMeanCol ((sortByDate t).map p.2) w)[i]? =
      some (some (((q.take (i + 1)).drop (i + 1 - w)).sum /
        ((((q.take (i + 1)).drop (i + 1 - w)).length : ℚ)))) := by
  have hqlen : t.length = q.length := by
    have h1 := congrArg List.length hq
    simp only [List.length_map, sortByDate_length] at h1
    exact h1
  constructor
  · simp only [weather_vars, List.mem_cons, List.not_mem_nil, or_false] at hp
    rcases hp with rfl | rfl | rfl | rfl | rfl <;>
      simp only [rolling_windows, List.mem_cons, List.not_mem_nil, or_false] at hw <;>
        rcases hw with rfl | rfl <;> rfl
  · have hw0 : 0 < w := by
      simp only [rolling_windows, List.mem_cons, List.not_mem_nil, or_false] at hw
      rcases hw with rfl | rfl <;> norm_num
    rw [hq]
    exact rollMeanCol_getElem q w i hw0 (by omega)

/-- Witness for C3 at the spec's example: RAINFALL = [0,5,0,0,10,0,0,0,0,20]
on 2020-01-01..2020-01-10; `RAINFALL_ROLL_MEAN_7D` at index 9 is the mean of
indices 3..9, namely (0+10+0+0+0+0+20)/7 = 30/7. -/
theorem roll_mean_is_window_mean_witness :
    (create_lag_features exRollTable).derived.lookup "RAINFALL_ROLL_MEAN_7D" =
        some (rollMeanCol ((sortByDate exRollTable).map Row.rainfall) 7) ∧
    (rollMeanCol ((sortByDate exRollTable).map Row.rainfall) 7)[9]? =
      some (some (30 / 7)) := by
  have h := roll_mean_is_window_mean exRollTable ("RAINFALL", Row.rainfall)
    (by simp [weather_vars]) 7 (by simp [rolling_windows])
    [0, 5, 0, 0, 10, 0, 0, 0, 0, 20] (by decide) 9 (by decide)
  refine ⟨h.1, ?_⟩
  rw [h.2]
  norm_num [List.take, List.drop]

/-! ## Claim C10: rolling standard deviations are missing at the first row -/

/-- At row 0 the trailing window holds a single cell, so the sample standard
deviation (`ddof = 1`) is undefined there, `min_periods = 1`
notwithstanding. -/
theorem rollStdSqCol_getElem_zero {l : List (Option ℚ)} (hl : l ≠ []) {w : Nat}
    (hw : 1 ≤ w) : (rollStdSqCol l w)[0]? = some none := by
  rcases l with _ | ⟨x, xs⟩
  · exact absurd rfl hl
  unfold rollStdSqCol windowSlice
  rw [List.getElem?_map, List.getElem?_range (by simp)]
  have h1 : 1 - w = 0 := by omega
  rw [Option.map_some', h1]
  rcases x with _ | v <;> simp [List.filterMap]

/-- Claim C10.  For every nonempty cleaned input dataset, every weather variable X
and every window `w ∈ {7, 14}`: the feature builder's `X_ROLL_STD_wD` column
(modelled squared as `rollStdSqCol`, with identical missing cells) is
missing at row index 0. -/
theorem roll_std_missing_at_first_row (t : List Row) (ht : t ≠ [])
    (p : String × (Row → Option ℚ)) (hp : p ∈ weather_vars)
    (w : Nat) (hw : w ∈ rolling_windows) :
    (create_lag_features t).derived.lookup (p.1 ++ "_ROLL_STD_" ++ toString w ++ "D") =
        some (rollStdSqCol ((sortByDate t).map p.2) w) ∧
    (rollStdSqCol ((sortByDate t).map p.2) w)[0]? = some none := by
  have hw1 : 1 ≤ w := by
    simp only [rolling_windows, List.mem_cons, List.not_mem_nil, or_false] at hw
    rcases hw with rfl | rfl <;> norm_num
  have hne : (sortByDate t).map p.2 ≠ [] := by
    have : ((sortByDate t).map p.2).length ≠ 0 := by
      rw [List.length_map, sortByDate_length]
      exact fun h => ht (List.length_eq_zero.1 h)
    exact fun h => this (by rw [h]; rfl)
  refine ⟨?_, rollStdSqCol_getElem_zero hne hw1⟩
  simp only [weather_vars, List.mem_cons, List.not_mem_nil, or_false] at hp
  rcases hp with rfl | rfl | rfl | rfl | rfl <;>
    simp only [rolling_windows, List.mem_cons, List.not_mem_nil, or_false] at hw <;>
      rcases hw with rfl | rfl <;> rfl

/-- Witness for C10 at the example table: `RAINFALL_ROLL_STD_7D` is missing
at row 0. -/
theorem roll_std_missing_at_first_row_witness :
    (create_lag_features exRollTable).derived.lookup "RAINFALL_ROLL_STD_7D" =
        some (rollStdSqCol ((sortByDate exRollTable).map Row.rainfall) 7) ∧
    (rollStdSqCol ((sortByDate exRollTable).map Row.rainfall) 7)[0]? = some none :=
  roll_std_missing_at_first_row exRollTable (by decide) ("RAINFALL", Row.rainfall)
    (by simp [weather_vars]) 7 (by simp [rolling_windows])

/-! ## Claim C1: the correlation-matrix "top 20" cap

The source comment announces "Limit to top 20 features for readability", but
the branch keeps *every* priority column (name containing `DENGUE`, or not
containing `LAG`) and only caps the filler columns.  On the pipeline's own
feature schema there are 35 priority columns, so the produced correlation
matrix spans 35 columns, not 20. -/

/-- Claim C1 evaluated at the failing input: on the numeric columns of the
pipeline's own feature dataset, the report generator's correlation-matrix
column selection keeps 35 columns — the documented cap of 20 is exceeded
(while, as the claim also states, every `DENGUE` column is kept: all 35
priority columns are). -/
theorem corr_cols_cap_violated :
    (selectCorrCols featureNumericCols).length = 35 ∧
      ¬ (selectCorrCols featureNumericCols).length ≤ 20 := by
  constructor <;> decide

/-! ## Claim C9: the report generator and its input frame -/

theorem lookup_map_overwrite (df : EdaFrame) (name c : String) (v : List Cell)
    (hc : c ≠ name) :
    (df.map fun p => if p.1 == name then (p.1, v) else p).lookup c = df.lookup c := by
  have hcn : ∀ k : String, (k == name) = true → (c == k) = false := by
    intro k hk
    have hk' : k = name := by simpa using hk
    subst hk'
    simpa using hc
  induction df with
  | nil => rfl
  | cons p df ih =>
    obtain ⟨k, b⟩ := p
    simp only [List.map_cons]
    by_cases hp : (k == name) = true
    · rw [if_pos hp, List.lookup_cons, List.lookup_cons, hcn k hp]
      exact ih
    · rw [if_neg hp, List.lookup_cons, List.lookup_cons]
      rcases hck : c == k with _ | _
      · exact ih
      · rfl

theorem lookup_append_single (df : EdaFrame) (name c : String) (v : List Cell)
    (hc : c ≠ name) : (df ++ [(name, v)]).lookup c = df.lookup c := by
  induction df with
  | nil =>
    simp only [List.nil_append, List.lookup_cons]
    rw [show (c == name) = false by simpa using hc]
  | cons p df ih =>
    obtain ⟨k, b⟩ := p
    rw [List.cons_append, List.lookup_cons, List.lookup_cons]
    rcases hck : c == k with _ | _
    · exact ih
    · rfl

/-- Claim C9, amended.  Whenever the report generator completes (its input
frame carries every column it dereferences unconditionally), its single
write into the frame it reads is the derived `YEAR_MONTH` column (appended,
or overwritten if a column of that name already exists): every other column
keeps its cells, and for a frame without a `YEAR_MONTH` column — such as the
pipeline's feature output — the schema becomes the old columns followed by
`YEAR_MONTH`.  When a dereferenced column is missing, the job aborts before
line 202 and the frame is never mutated (no result frame exists).  Nothing
is ever written back to storage. -/
theorem generate_eda_frame_touches_only_year_month (df df' : EdaFrame)
    (h : generate_eda_frame df = .ok df') (c : String) (hc : c ≠ "YEAR_MONTH") :
    df'.lookup c = df.lookup c ∧
    ("YEAR_MONTH" ∉ df.map Prod.fst →
      df'.map Prod.fst = df.map Prod.fst ++ ["YEAR_MONTH"]) := by
  unfold generate_eda_frame at h
  by_cases hreq : edaRequiredCols.all (fun n => df.any fun p => p.1 == n)
  · rw [if_pos hreq] at h
    injection h with h
    subst h
    unfold setCol
    by_cases hym : df.any (fun p => p.1 == "YEAR_MONTH")
    · rw [if_pos hym]
      constructor
      · exact lookup_map_overwrite df _ c _ hc
      · intro hnm
        rcases List.any_eq_true.1 hym with ⟨p, hp, hpeq⟩
        exact absurd (List.mem_map.2 ⟨p, hp, by simpa using hpeq⟩) hnm
    · rw [if_neg hym]
      exact ⟨lookup_append_single df _ c _ hc, fun _ => by simp⟩
  · rw [if_neg hreq] at h
    exact absurd h (by simp)

/-- A one-row frame with the cleaner's canonical 10-column layout — in
particular it carries every column `generate_eda` dereferences, so the run
reaches line 202. -/
def exEdaFrame : EdaFrame :=
  [("DATE", [Cell.date 2020 1 1]), ("YEAR", [Cell.num 2020]), ("MONTH", [Cell.num 1]),
   ("DAY", [Cell.num 1]), ("RAINFALL", [Cell.num 0]), ("TMAX", [Cell.num 30]),
   ("TMIN", [Cell.num 25]), ("Ave. Temp", [Cell.num 27]), ("RH", [Cell.num 80]),
   ("DENGUE CASES", [Cell.num 1])]

/-- Counterexample to C9 as stated: on a full-schema frame the report
generator completes — and the frame it read has gained a `YEAR_MONTH`
column, so its column set is not left unchanged. -/
theorem generate_eda_frame_changes_schema :
    generate_eda_frame exEdaFrame =
      .ok (exEdaFrame ++ [("YEAR_MONTH", [Cell.period 2020 1])]) ∧
    (exEdaFrame ++ [("YEAR_MONTH", [Cell.period 2020 1])]).map Prod.fst ≠
      exEdaFrame.map Prod.fst :=
  ⟨rfl, by decide⟩

/-- Witness for the amended C9: on the full-schema frame the run completes,
the RAINFALL column is untouched and the schema is the old one plus
`YEAR_MONTH`. -/
theorem generate_eda_frame_touches_only_year_month_witness :
    (exEdaFrame ++ [("YEAR_MONTH", [Cell.period 2020 1])]).lookup "RAINFALL" =
      exEdaFrame.lookup "RAINFALL" ∧
    (exEdaFrame ++ [("YEAR_MONTH", [Cell.period 2020 1])]).map Prod.fst =
      exEdaFrame.map Prod.fst ++ ["YEAR_MONTH"] := by
  have h := generate_eda_frame_touches_only_year_month exEdaFrame
    (exEdaFrame ++ [("YEAR_MONTH", [Cell.period 2020 1])]) rfl "RAINFALL" (by decide)
  exact ⟨h.1, h.2 (by decide)⟩

end DenguePipeline
